import Mathlib

/-!
Shallow embedding of the GST invoice matching engine (gst_matcher.py) and
proofs of the specified properties of GSTMatcher.match_invoices.

Modelling conventions:
- A pandas DataFrame is a list of rows; a row is a structure whose fields are
  the canonical columns produced by the loader plus the two derived columns
  Clean_Invoice and Date_Str added by match_invoices itself, modelled as
  Option-typed fields (none = column absent, as before the call).
- Monetary totals are rationals; a calendar date is a day-month-year triple.
- match_invoices mutates its two argument DataFrames in place (it assigns the
  Clean_Invoice and Date_Str columns on them); this is modelled by returning
  the updated tables next to the (matched, unmatched) result.
- Fallible execution is modelled with Except String: the close-match pass of
  lines 104-130 filters the portal subset on the column named Invoice Date_x
  (line 112), a column that never exists on portal_df, so the first execution
  of that loop body raises KeyError.
-/

namespace GSTMatch

/-- Calendar date as parsed by the loader; the matcher uses only equality on
dates and the day-month-year text rendering for the Date_Str column. -/
structure Date where
  day : Nat
  month : Nat
  year : Nat
deriving DecidableEq

/-- Two-digit zero padding, as produced by strftime day and month fields. -/
def pad2 (n : Nat) : String :=
  if n < 10 then "0" ++ toString n else toString n

/-- Rendering of a date in the d-m-Y format used at line 75 for Date_Str. -/
def fmtDate (d : Date) : String :=
  pad2 d.day ++ "-" ++ pad2 d.month ++ "-" ++ toString d.year

/-- clean_invoice (lines 68-69): deletes each character that is not one of
0-9, a-z, A-Z from the invoice identifier. -/
def clean_invoice (s : String) : String :=
  String.mk (s.data.filter Char.isAlphanum)

/-- One row of the canonical company table as produced by load_data:
GSTIN of supplier, Party Name, Accounting Document No, Invoice No,
Invoice Date and the derived Total, plus the two columns Clean_Invoice and
Date_Str that match_invoices assigns (absent before the call). -/
structure CompanyRow where
  gstin : String
  partyName : String
  accountingDocNo : String
  invoiceNo : String
  invoiceDate : Date
  total : Rat
  cleanInvoice : Option String := none
  dateStr : Option String := none
deriving DecidableEq

/-- One row of the canonical portal table as produced by load_data:
GSTIN of supplier, Invoice number, Invoice Date and the derived Total, plus
the Clean_Invoice column that match_invoices assigns (absent before the
call). -/
structure PortalRow where
  gstin : String
  invoiceNo : String
  invoiceDate : Date
  total : Rat
  cleanInvoice : Option String := none
deriving DecidableEq

/-- One entry of the matched output (the record dictionaries built at lines
87-98 and 118-129). -/
structure MatchedRecord where
  gstin : String
  partyName : String
  accountingDocNo : String
  invoiceNo : String
  invoiceDate : String
  firmTotal : Rat
  portalTotal : Rat
  difference : Rat
  matchStatus : String
  portalMatch : String
deriving DecidableEq

/-- One entry of the unmatched output (the record dictionaries built at lines
135-141). -/
structure UnmatchedRecord where
  gstin : String
  partyName : String
  invoiceNo : String
  invoiceDate : String
  firmTotal : Rat
deriving DecidableEq

/-- Lines 72 and 75: assignment of the derived Clean_Invoice and Date_Str
columns on the company table. -/
def addCompanyDerived (r : CompanyRow) : CompanyRow :=
  { r with
    cleanInvoice := some (clean_invoice r.invoiceNo)
    dateStr := some (fmtDate r.invoiceDate) }

/-- Line 73: assignment of the derived Clean_Invoice column on the portal
table. -/
def addPortalDerived (r : PortalRow) : PortalRow :=
  { r with cleanInvoice := some (clean_invoice r.invoiceNo) }

/-- Lines 77-83: the inner merge of the two tables on the composite key
(GSTIN of supplier, Clean_Invoice); one output pair per company-portal row
pair agreeing on the key, company-major in source order as pandas produces
for an inner merge. -/
def exactPairs (cs : List CompanyRow) (ps : List PortalRow) :
    List (CompanyRow × PortalRow) :=
  cs.flatMap fun c =>
    (ps.filter fun p =>
      decide (p.gstin = c.gstin ∧ p.cleanInvoice = c.cleanInvoice)).map
      fun p => (c, p)

/-- Lines 87-98: the matched-record dictionary built from one merged row.
The merged row carries the shared key columns, the company columns and the
portal columns with suffixes; Total_company and Total_portal are the two
Total columns. -/
def mkExactRecord (cp : CompanyRow × PortalRow) : MatchedRecord :=
  { gstin := cp.1.gstin
    partyName := cp.1.partyName
    accountingDocNo := cp.1.accountingDocNo
    invoiceNo := cp.1.invoiceNo
    invoiceDate := cp.1.dateStr.getD ""
    firmTotal := cp.1.total
    portalTotal := cp.2.total
    difference := cp.2.total - cp.1.total
    matchStatus := "Exact"
    portalMatch := cp.2.invoiceNo }

/-- Lines 135-141: the unmatched-record dictionary built from one company
row. -/
def mkUnmatchedRecord (r : CompanyRow) : UnmatchedRecord :=
  { gstin := r.gstin
    partyName := r.partyName
    invoiceNo := r.invoiceNo
    invoiceDate := r.dateStr.getD ""
    firmTotal := r.total }

/-- Lines 104-130: the close-match pass. It runs only when buffer_size > 0.
For each GSTIN value of the still-unmatched company rows it takes the portal
rows with that GSTIN; when that subset is nonempty it enters the per-company
loop, whose body first evaluates the candidate filter on the portal column
named Invoice Date_x (line 112). That column does not exist on portal_df
(the merge at line 77 uses the suffixes _company and _portal and does not
modify portal_df), so the first evaluation raises KeyError; hence the pass
raises exactly when some unmatched company row shares its GSTIN with some
portal row, and otherwise every subset loop is skipped and no close record
is ever produced. -/
def closePass (buffer_size : Rat) (unmatched_company : List CompanyRow)
    (portalD : List PortalRow) : Except String (List MatchedRecord) :=
  if buffer_size > 0 then
    if unmatched_company.any fun r => portalD.any fun p => decide (p.gstin = r.gstin)
    then Except.error "KeyError: Invoice Date_x"
    else Except.ok []
  else Except.ok []

/-- The company table after the in-place column assignments of lines 72 and
75. -/
def companyDerived (cs : List CompanyRow) : List CompanyRow :=
  cs.map addCompanyDerived

/-- The portal table after the in-place column assignment of line 73. -/
def portalDerived (ps : List PortalRow) : List PortalRow :=
  ps.map addPortalDerived

/-- Line 100: the set of raw Invoice No values of the exact matches (the
Invoice No column of the merge result is the company-side raw value). -/
def matchedInvoiceNos (cs : List CompanyRow) (ps : List PortalRow) :
    List String :=
  (exactPairs (companyDerived cs) (portalDerived ps)).map fun cp =>
    cp.1.invoiceNo

/-- Lines 85-98: the exact-match output records, one per merged row. -/
def exactOut (cs : List CompanyRow) (ps : List PortalRow) :
    List MatchedRecord :=
  (exactPairs (companyDerived cs) (portalDerived ps)).map mkExactRecord

/-- Line 101: the company rows whose raw Invoice No is not among the matched
invoice numbers. -/
def unmatched_company (cs : List CompanyRow) (ps : List PortalRow) :
    List CompanyRow :=
  (companyDerived cs).filter fun r =>
    decide (r.invoiceNo ∉ matchedInvoiceNos cs ps)

/-- Lines 132-141: the unmatched output records. Line 132 refilters
company_df against the matched_invoices set; the close pass never completes
an iteration that adds to that set (it raises instead, see closePass), so the
set at line 132 is the one of line 100 and the filter is that of line 101. -/
def unmatchedOut (cs : List CompanyRow) (ps : List PortalRow) :
    List UnmatchedRecord :=
  (unmatched_company cs ps).map mkUnmatchedRecord

/-- Lines 71-143: GSTMatcher.match_invoices. Assigns the derived columns on
both input tables in place (returned as the first two components), builds the
exact matches by the inner merge on (GSTIN of supplier, Clean_Invoice),
records the matched raw Invoice No values, runs the close pass on the rows
whose Invoice No is not among them, and emits as unmatched every company row
whose Invoice No is not among the matched invoice numbers; the close pass
either raises (propagated as the error) or contributes nothing. -/
def match_invoices (company : List CompanyRow) (portal : List PortalRow)
    (buffer_size : Rat) :
    List CompanyRow × List PortalRow ×
      Except String (List MatchedRecord × List UnmatchedRecord) :=
  match closePass buffer_size (unmatched_company company portal)
      (portalDerived portal) with
  | Except.error e =>
      (companyDerived company, portalDerived portal, Except.error e)
  | Except.ok close_matched_records =>
      (companyDerived company, portalDerived portal,
        Except.ok (exactOut company portal ++ close_matched_records,
          unmatchedOut company portal))

/-- The (matched, unmatched) result of a call, or its error. -/
def matchResult (company : List CompanyRow) (portal : List PortalRow)
    (buffer_size : Rat) :
    Except String (List MatchedRecord × List UnmatchedRecord) :=
  (match_invoices company portal buffer_size).2.2

/-! ### Concrete rows used to instantiate the theorems -/

/-- A company row whose invoice number INV/001 cleans to INV001. -/
def exactC : CompanyRow :=
  { gstin := "27G1", partyName := "Gamma", accountingDocNo := "A3",
    invoiceNo := "INV/001", invoiceDate := ⟨15, 1, 2024⟩, total := 100 }

/-- A portal row whose invoice number INV-001 also cleans to INV001; an
exact counterpart of exactC. -/
def exactP : PortalRow :=
  { gstin := "27G1", invoiceNo := "INV-001", invoiceDate := ⟨15, 1, 2024⟩,
    total := 100 }

/-- A company row with no exact counterpart below. -/
def nearC : CompanyRow :=
  { gstin := "27G1", partyName := "Alpha", accountingDocNo := "A1",
    invoiceNo := "INV/010", invoiceDate := ⟨15, 1, 2024⟩, total := 200 }

/-- A portal row sharing gstin and date with nearC, five apart in total, but
with a different cleaned invoice number. -/
def nearP : PortalRow :=
  { gstin := "27G1", invoiceNo := "INV-011", invoiceDate := ⟨15, 1, 2024⟩,
    total := 205 }

/-- A company row that exactly matches dupP. -/
def dupC1 : CompanyRow :=
  { gstin := "27G1", partyName := "Alpha", accountingDocNo := "A1",
    invoiceNo := "INV/001", invoiceDate := ⟨15, 1, 2024⟩, total := 200 }

/-- A company row carrying the same raw Invoice No as dupC1 but a different
gstin, so it matches nothing itself. -/
def dupC2 : CompanyRow :=
  { gstin := "33G2", partyName := "Beta", accountingDocNo := "A2",
    invoiceNo := "INV/001", invoiceDate := ⟨16, 1, 2024⟩, total := 300 }

/-- The portal row exactly matching dupC1. -/
def dupP : PortalRow :=
  { gstin := "27G1", invoiceNo := "INV-001", invoiceDate := ⟨15, 1, 2024⟩,
    total := 200 }

/-! ### Helper lemmas -/

/-- Whenever the close pass returns normally it returns no records. -/
theorem closePass_ok_eq_nil (b : Rat) (uc : List CompanyRow)
    (pd : List PortalRow) (l : List MatchedRecord)
    (h : closePass b uc pd = Except.ok l) : l = [] := by
  unfold closePass at h
  split at h
  · split at h
    · exact absurd h (by simp)
    · simpa using h.symm
  · simpa using h.symm

/-- With a nonpositive buffer the close pass is skipped. -/
theorem closePass_nonpos (b : Rat) (uc : List CompanyRow)
    (pd : List PortalRow) (hb : b ≤ 0) : closePass b uc pd = Except.ok [] := by
  unfold closePass
  rw [if_neg (not_lt.mpr hb)]

/-- The only error the close pass raises is the KeyError on the nonexistent
portal column. -/
theorem closePass_error_eq (b : Rat) (uc : List CompanyRow)
    (pd : List PortalRow) (e : String)
    (h : closePass b uc pd = Except.error e) :
    e = "KeyError: Invoice Date_x" := by
  unfold closePass at h
  split at h
  · split at h
    · simpa using h.symm
    · exact absurd h (by simp)
  · exact absurd h (by simp)

/-- Membership in the inner merge: a company-portal pair is produced exactly
when both rows are in their tables and they agree on the composite key. -/
theorem mem_exactPairs (cs : List CompanyRow) (ps : List PortalRow)
    (c : CompanyRow) (p : PortalRow) :
    (c, p) ∈ exactPairs cs ps ↔
      c ∈ cs ∧ p ∈ ps ∧ p.gstin = c.gstin ∧
        p.cleanInvoice = c.cleanInvoice := by
  constructor
  · intro h
    simp only [exactPairs, List.mem_flatMap, List.mem_map, List.mem_filter,
      decide_eq_true_eq] at h
    obtain ⟨c1, hc1, p1, ⟨⟨hp1, hg, hk⟩, heq⟩⟩ := h
    obtain ⟨h1, h2⟩ := Prod.mk.injEq .. ▸ heq
    subst h1; subst h2
    exact ⟨hc1, hp1, hg, hk⟩
  · rintro ⟨hc, hp, hg, hk⟩
    simp only [exactPairs, List.mem_flatMap, List.mem_map, List.mem_filter,
      decide_eq_true_eq]
    exact ⟨c, hc, p, ⟨⟨hp, hg, hk⟩, rfl⟩⟩

/-- Rows of the derived company table carry the cleaned form of their own
invoice number in the Clean_Invoice column. -/
theorem companyDerived_cleanInvoice (cs : List CompanyRow) (r : CompanyRow)
    (h : r ∈ companyDerived cs) :
    r.cleanInvoice = some (clean_invoice r.invoiceNo) := by
  simp only [companyDerived, List.mem_map] at h
  obtain ⟨r0, _, h0⟩ := h
  subst h0
  rfl

/-- Rows of the derived portal table carry the cleaned form of their own
invoice number in the Clean_Invoice column. -/
theorem portalDerived_cleanInvoice (ps : List PortalRow) (p : PortalRow)
    (h : p ∈ portalDerived ps) :
    p.cleanInvoice = some (clean_invoice p.invoiceNo) := by
  simp only [portalDerived, List.mem_map] at h
  obtain ⟨p0, _, h0⟩ := h
  subst h0
  rfl

/-- Every call either raises the KeyError of the close pass or returns the
exact matches together with the filtered unmatched rows. -/
theorem matchResult_cases (cs : List CompanyRow) (ps : List PortalRow)
    (t : Rat) :
    matchResult cs ps t = Except.error "KeyError: Invoice Date_x" ∨
      matchResult cs ps t = Except.ok (exactOut cs ps, unmatchedOut cs ps) := by
  unfold matchResult match_invoices
  split
  · rename_i e he
    exact Or.inl (by rw [closePass_error_eq _ _ _ _ he])
  · rename_i l hl
    rw [closePass_ok_eq_nil _ _ _ _ hl, List.append_nil]
    exact Or.inr rfl

/-- A successful call returns exactly the exact-match records and the
filtered unmatched rows. -/
theorem matchResult_ok_elim (cs : List CompanyRow) (ps : List PortalRow)
    (t : Rat) (m : List MatchedRecord) (u : List UnmatchedRecord)
    (h : matchResult cs ps t = Except.ok (m, u)) :
    m = exactOut cs ps ∧ u = unmatchedOut cs ps := by
  rcases matchResult_cases cs ps t with he | hk
  · rw [h] at he
    exact absurd he (by simp)
  · rw [h] at hk
    have h2 : (m, u) = (exactOut cs ps, unmatchedOut cs ps) :=
      Except.ok.inj hk
    have hm : m = exactOut cs ps := congrArg Prod.fst h2
    have hu : u = unmatchedOut cs ps := congrArg Prod.snd h2
    exact ⟨hm, hu⟩

/-- With a nonpositive buffer the whole call reduces to the exact pass plus
the final filter. -/
theorem match_invoices_nonpos_eq (cs : List CompanyRow) (ps : List PortalRow)
    (t : Rat) (ht : t ≤ 0) :
    match_invoices cs ps t =
      (companyDerived cs, portalDerived ps,
        Except.ok (exactOut cs ps ++ [], unmatchedOut cs ps)) := by
  unfold match_invoices
  rw [closePass_nonpos _ _ _ ht]

/-! ### Claim theorems -/

/-- C1: the claim says that with tolerance > 0 a company record left
unmatched by the exact pass is classified Close exactly when a portal record
with its gstin carries an equal invoice date and a total within tolerance.
The code instead raises KeyError on the nonexistent portal column
Invoice Date_x as soon as such a candidate group is scanned: here nearP is a
qualifying candidate for nearC (same gstin, same date, totals five apart,
tolerance ten), yet the call errors instead of producing a Close match. -/
theorem close_pass_raises_keyerror :
    matchResult [nearC] [nearP] 10 = Except.error "KeyError: Invoice Date_x" ∧
    nearP.gstin = nearC.gstin ∧ nearP.invoiceDate = nearC.invoiceDate ∧
    nearP.total - nearC.total ≤ 10 ∧ nearC.total - nearP.total ≤ 10 :=
  ⟨rfl, rfl, rfl, by norm_num [nearP, nearC], by norm_num [nearP, nearC]⟩

/-- C2: the claim says the three buckets partition the company record set
for every input. With two company rows sharing the raw Invoice No INV/001,
once dupC1 exact-matches, dupC2 (identified by its accounting document
number A2) appears in no bucket: the matched output holds a single record
and it is not dupC2's, and the unmatched output is empty. -/
theorem partition_violated_by_duplicate_invoice_no :
    matchResult [dupC1, dupC2] [dupP] 0 =
      Except.ok (exactOut [dupC1, dupC2] [dupP], []) ∧
    (exactOut [dupC1, dupC2] [dupP]).length = 1 ∧
    (exactOut [dupC1, dupC2] [dupP]).all
      (fun rec => decide (rec.accountingDocNo ≠ dupC2.accountingDocNo)) =
      true :=
  ⟨rfl, rfl, rfl⟩

/-- C3 counterexample: the claim says a negative tolerance is rejected with
an error before any matching; the call with tolerance -1 instead returns a
normal (matched, unmatched) result. -/
theorem negative_tolerance_not_rejected :
    matchResult [nearC] [nearP] (-1) =
      Except.ok ([], [mkUnmatchedRecord (addCompanyDerived nearC)]) := rfl

/-- C3 amended: a negative tolerance is not rejected; the close pass is
skipped and the call returns, without error, exactly the result of the call
with tolerance zero. -/
theorem negative_tolerance_behaves_as_zero (cs : List CompanyRow)
    (ps : List PortalRow) (t : Rat) (ht : t < 0) :
    match_invoices cs ps t = match_invoices cs ps 0 ∧
    matchResult cs ps t = Except.ok (exactOut cs ps, unmatchedOut cs ps) := by
  constructor
  · rw [match_invoices_nonpos_eq cs ps t (le_of_lt ht),
      match_invoices_nonpos_eq cs ps 0 le_rfl]
  · unfold matchResult
    rw [match_invoices_nonpos_eq cs ps t (le_of_lt ht), List.append_nil]

/-- C3 witness: the amended statement at tolerance -1 on a concrete pair. -/
theorem negative_tolerance_behaves_as_zero_witness :
    ((-1 : Rat) < 0) ∧
      (match_invoices [dupC1] [dupP] (-1) = match_invoices [dupC1] [dupP] 0 ∧
       matchResult [dupC1] [dupP] (-1) =
         Except.ok (exactOut [dupC1] [dupP], unmatchedOut [dupC1] [dupP])) :=
  ⟨by norm_num,
    negative_tolerance_behaves_as_zero [dupC1] [dupP] (-1) (by norm_num)⟩

/-- C4: a company row and a portal row of the derived tables form an exact
match precisely when they agree on gstin and on the cleaned invoice number
(the raw invoice number with every non-alphanumeric character removed);
totals and dates do not occur in the condition. -/
theorem exact_match_iff_key_equality (cs : List CompanyRow)
    (ps : List PortalRow) (c : CompanyRow) (p : PortalRow) :
    (c, p) ∈ exactPairs (companyDerived cs) (portalDerived ps) ↔
      c ∈ companyDerived cs ∧ p ∈ portalDerived ps ∧
        p.gstin = c.gstin ∧
        clean_invoice p.invoiceNo = clean_invoice c.invoiceNo := by
  rw [mem_exactPairs]
  constructor
  · rintro ⟨hc, hp, hg, hk⟩
    refine ⟨hc, hp, hg, ?_⟩
    rw [companyDerived_cleanInvoice _ _ hc,
      portalDerived_cleanInvoice _ _ hp] at hk
    exact Option.some_inj.mp hk
  · rintro ⟨hc, hp, hg, hk⟩
    refine ⟨hc, hp, hg, ?_⟩
    rw [companyDerived_cleanInvoice _ _ hc,
      portalDerived_cleanInvoice _ _ hp, hk]

/-- C4 witness: the characterization instantiated on a concrete exact pair
whose raw invoice numbers differ only in punctuation. -/
theorem exact_match_iff_key_equality_witness :
    (addCompanyDerived exactC, addPortalDerived exactP) ∈
      exactPairs (companyDerived [exactC]) (portalDerived [exactP]) :=
  (exact_match_iff_key_equality [exactC] [exactP]
      (addCompanyDerived exactC) (addPortalDerived exactP)).mpr
    ⟨by rw [show companyDerived [exactC] = [addCompanyDerived exactC] from rfl]
        exact List.mem_singleton.mpr rfl,
      by rw [show portalDerived [exactP] = [addPortalDerived exactP] from rfl]
         exact List.mem_singleton.mpr rfl,
      rfl, rfl⟩

/-- C5: the claim says enlarging the tolerance never loses a matched record.
On this input tolerance zero yields one matched record and one unmatched
record, while tolerance ten makes the call raise KeyError, so the record
matched at tolerance zero is not matched at the larger tolerance. -/
theorem tolerance_increase_loses_matches :
    matchResult [exactC, nearC] [exactP, nearP] 0 =
      Except.ok (exactOut [exactC, nearC] [exactP, nearP],
        [mkUnmatchedRecord (addCompanyDerived nearC)]) ∧
    (exactOut [exactC, nearC] [exactP, nearP]).length = 1 ∧
    matchResult [exactC, nearC] [exactP, nearP] 10 =
      Except.error "KeyError: Invoice Date_x" :=
  ⟨rfl, rfl, rfl⟩

/-- C6: every record of the matched output of a successful call reports as
Difference exactly the portal total minus the company total. -/
theorem difference_eq_portal_minus_company (cs : List CompanyRow)
    (ps : List PortalRow) (t : Rat) (m : List MatchedRecord)
    (u : List UnmatchedRecord)
    (h : matchResult cs ps t = Except.ok (m, u))
    (rec : MatchedRecord) (hrec : rec ∈ m) :
    rec.difference = rec.portalTotal - rec.firmTotal := by
  obtain ⟨hm, _⟩ := matchResult_ok_elim cs ps t m u h
  subst hm
  simp only [exactOut, List.mem_map] at hrec
  obtain ⟨cp, _, hcp⟩ := hrec
  subst hcp
  rfl

/-- C6 witness: the difference law checked on the concrete exact pair. -/
theorem difference_eq_portal_minus_company_witness :
    (matchResult [exactC] [exactP] 0 =
      Except.ok (exactOut [exactC] [exactP], unmatchedOut [exactC] [exactP])) ∧
    (mkExactRecord (addCompanyDerived exactC, addPortalDerived exactP) ∈
      exactOut [exactC] [exactP]) ∧
    (mkExactRecord (addCompanyDerived exactC, addPortalDerived exactP)).difference =
      (mkExactRecord (addCompanyDerived exactC, addPortalDerived exactP)).portalTotal -
      (mkExactRecord (addCompanyDerived exactC, addPortalDerived exactP)).firmTotal :=
  have hres : matchResult [exactC] [exactP] 0 =
      Except.ok (exactOut [exactC] [exactP], unmatchedOut [exactC] [exactP]) :=
    rfl
  have hmem : mkExactRecord (addCompanyDerived exactC, addPortalDerived exactP) ∈
      exactOut [exactC] [exactP] := by
    rw [show exactOut [exactC] [exactP] =
      [mkExactRecord (addCompanyDerived exactC, addPortalDerived exactP)] from
        rfl]
    exact List.mem_singleton.mpr rfl
  ⟨hres, hmem,
    difference_eq_portal_minus_company [exactC] [exactP] 0 _ _ hres _ hmem⟩

/-- C7 counterexample: the claim says the input tables are unchanged by the
call; the returned company table differs from the argument because the
Clean_Invoice and Date_Str columns have been assigned on it. -/
theorem match_mutates_inputs :
    (match_invoices [nearC] [nearP] 0).1 ≠ [nearC] := by decide

/-- C7 amended: the call has no effect beyond its returned value and the
in-place assignment of the derived columns: the returned tables are the
inputs with Clean_Invoice (both tables) and Date_Str (company) filled in,
and every pre-existing column of every row is unchanged. -/
theorem match_effects_only_derived_cols (cs : List CompanyRow)
    (ps : List PortalRow) (t : Rat) :
    (match_invoices cs ps t).1 = companyDerived cs ∧
    (match_invoices cs ps t).2.1 = portalDerived ps ∧
    (∀ r : CompanyRow, (addCompanyDerived r).gstin = r.gstin ∧
      (addCompanyDerived r).partyName = r.partyName ∧
      (addCompanyDerived r).accountingDocNo = r.accountingDocNo ∧
      (addCompanyDerived r).invoiceNo = r.invoiceNo ∧
      (addCompanyDerived r).invoiceDate = r.invoiceDate ∧
      (addCompanyDerived r).total = r.total) ∧
    (∀ p : PortalRow, (addPortalDerived p).gstin = p.gstin ∧
      (addPortalDerived p).invoiceNo = p.invoiceNo ∧
      (addPortalDerived p).invoiceDate = p.invoiceDate ∧
      (addPortalDerived p).total = p.total) := by
  refine ⟨?_, ?_, fun r => ⟨rfl, rfl, rfl, rfl, rfl, rfl⟩,
    fun p => ⟨rfl, rfl, rfl, rfl⟩⟩
  · unfold match_invoices
    split <;> rfl
  · unfold match_invoices
    split <;> rfl

/-- C8: the matcher is deterministic: equal company table, portal table and
tolerance give equal results, tables and output sequences alike. -/
theorem match_deterministic (cs1 cs2 : List CompanyRow)
    (ps1 ps2 : List PortalRow) (t1 t2 : Rat)
    (hc : cs1 = cs2) (hp : ps1 = ps2) (ht : t1 = t2) :
    match_invoices cs1 ps1 t1 = match_invoices cs2 ps2 t2 := by
  subst hc; subst hp; subst ht
  rfl

/-- C8 witness: determinism instantiated on a concrete call. -/
theorem match_deterministic_witness :
    ([exactC] = [exactC]) ∧ ([exactP] = [exactP]) ∧ ((5 : Rat) = 5) ∧
      match_invoices [exactC] [exactP] 5 = match_invoices [exactC] [exactP] 5 :=
  ⟨rfl, rfl, rfl,
    match_deterministic [exactC] [exactC] [exactP] [exactP] 5 5 rfl rfl rfl⟩

/-- C9: in a successful call, once some matched record carries a raw Invoice
No value, no record of the unmatched output carries that value: every
company row sharing the value is excluded from the unmatched output, whether
or not its own pairing matched. -/
theorem shared_invoice_no_excluded_from_unmatched (cs : List CompanyRow)
    (ps : List PortalRow) (t : Rat) (m : List MatchedRecord)
    (u : List UnmatchedRecord)
    (h : matchResult cs ps t = Except.ok (m, u)) (v : String)
    (hm : ∃ rec ∈ m, rec.invoiceNo = v)
    (rec' : UnmatchedRecord) (hu : rec' ∈ u) :
    rec'.invoiceNo ≠ v := by
  obtain ⟨hme, hue⟩ := matchResult_ok_elim cs ps t m u h
  subst hme; subst hue
  obtain ⟨rec, hrec, hv⟩ := hm
  simp only [exactOut, List.mem_map] at hrec
  obtain ⟨cp, hcp, hrec⟩ := hrec
  have hvmem : v ∈ matchedInvoiceNos cs ps := by
    simp only [matchedInvoiceNos, List.mem_map]
    refine ⟨cp, hcp, ?_⟩
    rw [← hv, ← hrec]
    rfl
  simp only [unmatchedOut, unmatched_company, List.mem_map, List.mem_filter,
    decide_eq_true_eq] at hu
  obtain ⟨r, ⟨_, hnot⟩, hrec'⟩ := hu
  subst hrec'
  intro hcontra
  exact hnot (by rw [show (mkUnmatchedRecord r).invoiceNo = r.invoiceNo from
    rfl] at hcontra; rw [hcontra]; exact hvmem)

/-- C9 witness: with dupC1 exact-matched on INV/001 and nearC unmatched, the
unmatched output record of nearC does not carry INV/001. -/
theorem shared_invoice_no_excluded_from_unmatched_witness :
    (matchResult [dupC1, nearC] [dupP] 0 =
      Except.ok (exactOut [dupC1, nearC] [dupP],
        unmatchedOut [dupC1, nearC] [dupP])) ∧
    (∃ rec ∈ exactOut [dupC1, nearC] [dupP], rec.invoiceNo = "INV/001") ∧
    (mkUnmatchedRecord (addCompanyDerived nearC) ∈
      unmatchedOut [dupC1, nearC] [dupP]) ∧
    (mkUnmatchedRecord (addCompanyDerived nearC)).invoiceNo ≠ "INV/001" :=
  have hres : matchResult [dupC1, nearC] [dupP] 0 =
      Except.ok (exactOut [dupC1, nearC] [dupP],
        unmatchedOut [dupC1, nearC] [dupP]) := rfl
  have hmex : ∃ rec ∈ exactOut [dupC1, nearC] [dupP],
      rec.invoiceNo = "INV/001" := by
    refine ⟨mkExactRecord (addCompanyDerived dupC1, addPortalDerived dupP),
      ?_, rfl⟩
    rw [show exactOut [dupC1, nearC] [dupP] =
      [mkExactRecord (addCompanyDerived dupC1, addPortalDerived dupP)] from
        rfl]
    exact List.mem_singleton.mpr rfl
  have hmun : mkUnmatchedRecord (addCompanyDerived nearC) ∈
      unmatchedOut [dupC1, nearC] [dupP] := by
    rw [show unmatchedOut [dupC1, nearC] [dupP] =
      [mkUnmatchedRecord (addCompanyDerived nearC)] from rfl]
    exact List.mem_singleton.mpr rfl
  ⟨hres, hmex, hmun,
    shared_invoice_no_excluded_from_unmatched [dupC1, nearC] [dupP] 0 _ _
      hres "INV/001" hmex _ hmun⟩

/-- C10: with any nonpositive tolerance, negative included, the close pass
is skipped, no error is raised, and the call returns exactly the result of
the call with tolerance zero. -/
theorem nonpositive_tolerance_skips_close_pass (cs : List CompanyRow)
    (ps : List PortalRow) (t : Rat) (ht : t ≤ 0) :
    match_invoices cs ps t = match_invoices cs ps 0 ∧
    matchResult cs ps t = Except.ok (exactOut cs ps, unmatchedOut cs ps) := by
  constructor
  · rw [match_invoices_nonpos_eq cs ps t ht,
      match_invoices_nonpos_eq cs ps 0 le_rfl]
  · unfold matchResult
    rw [match_invoices_nonpos_eq cs ps t ht, List.append_nil]

/-- C10 witness: the equivalence at tolerance -2 on a concrete pair that
would trigger the close pass were the tolerance positive. -/
theorem nonpositive_tolerance_skips_close_pass_witness :
    ((-2 : Rat) ≤ 0) ∧
      (match_invoices [nearC] [nearP] (-2) = match_invoices [nearC] [nearP] 0 ∧
       matchResult [nearC] [nearP] (-2) =
         Except.ok (exactOut [nearC] [nearP], unmatchedOut [nearC] [nearP])) :=
  ⟨by norm_num,
    nonpositive_tolerance_skips_close_pass [nearC] [nearP] (-2) (by norm_num)⟩

end GSTMatch
